import Mathlib

/-!
# Verification of the pyMission segment-assembly and multipoint layer

Shallow embedding of `src/pyMission/segment.py` (the `MissionSegment`
assembly) and `src/pyMission/multipoint.py` (the three-leg mission script
with its fuel-burn reduction).  The assembly constructor is a straight-line
sequence of `add` / `connect` / `add_parameter` / `add_constraint` /
`create_passthrough` / `workflow.add` calls, so it is embedded as a record
of the concrete lists those calls build, in source order.  External
collaborators (the openmdao `NewtonSolver` loop, the openmdao workflow
executor, scipy's GMRES) are not part of this repository; where a claim
needs their behaviour they are modelled from the spec, and this is noted
on the definition.
-/

set_option autoImplicit false

namespace PyMission

/-- A directed connection `sourceSystem.outputPort → destSystem.inputPort`,
as issued by `Assembly.connect(src, dst)` in `segment.py`. -/
structure Connection where
  src : String
  dst : String
  deriving Repr, DecidableEq

/-- The six aircraft parameters read from the params file in
`MissionSegment.__init__` (segment.py lines 72-77). -/
structure SegmentParams where
  S : ℚ
  ac_w : ℚ
  thrust_sl : ℚ
  SFCSL : ℚ
  AR : ℚ
  oswald : ℚ
  deriving Repr, DecidableEq

/-- Embedding of `np.linspace(a, b, n)`: `n` evenly spaced samples from `a` to `b`
inclusive (numpy semantics: a single sample is `[a]`). -/
def linspace (a b : ℚ) (n : Nat) : List ℚ :=
  if n = 0 then []
  else if n = 1 then [a]
  else (List.range n).map (fun (i : Nat) => a + (b - a) * (i : ℚ) / ((n : ℚ) - 1))

/-- The static product of `MissionSegment.__init__`: the systems added, the
connections wired, the coupled solver's parameter/constraint registrations,
the passthrough ports, the two workflow orders, the solver settings and the
fuel-weight initial guess. -/
structure SegmentAssembly where
  num_elem : Nat
  num_pt : Nat
  params : SegmentParams
  wt_pax : ℚ
  systems : List String
  connections : List Connection
  /-- The `(add_parameter, add_constraint)` pairs registered on `coupled_solver`. -/
  solverStates : List (String × String)
  passthroughs : List String
  topWorkflow : List String
  coupledWorkflow : List String
  atol : ℚ
  rtol : ℚ
  max_iteration : Nat
  fuel_w_init : List ℚ

/-- The connect calls of `MissionSegment.__init__`, in source order
(segment.py lines 126-267). -/
def segmentConnections : List Connection :=
  [⟨"SysHBspline.h", "SysSFC.h"⟩,
   ⟨"SysHBspline.h", "SysTemp.h"⟩,
   ⟨"SysHBspline.h", "SysRho.h"⟩,
   ⟨"SysTemp.temp", "SysRho.temp"⟩,
   ⟨"SysTemp.temp", "SysSpeed.temp"⟩,
   ⟨"SysMVBspline.M", "SysSpeed.M"⟩,
   ⟨"SysMVBspline.v_spline", "SysSpeed.v_spline"⟩,
   ⟨"SysRho.rho", "SysCLTar.rho"⟩,
   ⟨"SysGammaBspline.Gamma", "SysCLTar.Gamma"⟩,
   ⟨"SysSpeed.v", "SysCLTar.v"⟩,
   ⟨"SysMVBspline.M", "SysTripanCLSurrogate.M"⟩,
   ⟨"SysHBspline.h", "SysTripanCLSurrogate.h"⟩,
   ⟨"SysCLTar.CL", "SysTripanCLSurrogate.CL_tar"⟩,
   ⟨"SysMVBspline.M", "SysTripanCMSurrogate.M"⟩,
   ⟨"SysHBspline.h", "SysTripanCMSurrogate.h"⟩,
   ⟨"SysTripanCLSurrogate.alpha", "SysTripanCMSurrogate.alpha"⟩,
   ⟨"SysMVBspline.M", "SysTripanCDSurrogate.M"⟩,
   ⟨"SysHBspline.h", "SysTripanCDSurrogate.h"⟩,
   ⟨"SysTripanCMSurrogate.eta", "SysTripanCDSurrogate.eta"⟩,
   ⟨"SysTripanCLSurrogate.alpha", "SysTripanCDSurrogate.alpha"⟩,
   ⟨"SysGammaBspline.Gamma", "SysCTTar.Gamma"⟩,
   ⟨"SysTripanCDSurrogate.CD", "SysCTTar.CD"⟩,
   ⟨"SysTripanCLSurrogate.alpha", "SysCTTar.alpha"⟩,
   ⟨"SysRho.rho", "SysCTTar.rho"⟩,
   ⟨"SysSpeed.v", "SysCTTar.v"⟩,
   ⟨"SysSpeed.v", "SysFuelWeight.v"⟩,
   ⟨"SysGammaBspline.Gamma", "SysFuelWeight.Gamma"⟩,
   ⟨"SysCTTar.CT_tar", "SysFuelWeight.CT_tar"⟩,
   ⟨"SysXBspline.x", "SysFuelWeight.x"⟩,
   ⟨"SysSFC.SFC", "SysFuelWeight.SFC"⟩,
   ⟨"SysRho.rho", "SysFuelWeight.rho"⟩,
   ⟨"SysFuelWeight.fuel_w", "SysCLTar.fuel_w"⟩,
   ⟨"SysCTTar.CT_tar", "SysCLTar.CT_tar"⟩,
   ⟨"SysTripanCLSurrogate.alpha", "SysCLTar.alpha"⟩,
   ⟨"SysTripanCMSurrogate.eta", "SysTripanCLSurrogate.eta"⟩,
   ⟨"SysFuelWeight.fuel_w", "SysCTTar.fuel_w"⟩,
   ⟨"SysRho.rho", "SysTau.rho"⟩,
   ⟨"SysCTTar.CT_tar", "SysTau.CT_tar"⟩,
   ⟨"SysHBspline.h", "SysTau.h"⟩,
   ⟨"SysSpeed.v", "SysTau.v"⟩,
   ⟨"SysTau.tau", "SysTmin.tau"⟩,
   ⟨"SysTau.tau", "SysTmax.tau"⟩,
   ⟨"SysFuelWeight.fuel_w", "SysFuelObj.fuel_w"⟩,
   ⟨"SysXBspline.x", "SysBlockTime.x"⟩,
   ⟨"SysSpeed.v", "SysBlockTime.v"⟩,
   ⟨"SysGammaBspline.Gamma", "SysBlockTime.Gamma"⟩,
   ⟨"h_pt", "SysGammaBspline.h_pt"⟩,
   ⟨"pax_flt", "SysCLTar.pax_flt"⟩,
   ⟨"pax_flt", "SysCTTar.pax_flt"⟩]

/-- Embedding of `MissionSegment.__init__`: the record of everything the
constructor registers (segment.py lines 63-300).  `num_elem`, `num_pt` and
the loaded parameters are the constructor arguments that matter here; the
b-spline jacobians and surrogate arrays are opaque external data. -/
def missionSegment (num_elem num_pt : Nat) (p : SegmentParams) : SegmentAssembly where
  num_elem := num_elem
  num_pt := num_pt
  params := p
  wt_pax := 84 * (981 / 100)
  systems :=
    ["SysXBspline", "SysHBspline", "SysMVBspline", "SysGammaBspline",
     "SysSFC", "SysTemp", "SysRho", "SysSpeed",
     "SysCLTar", "SysTripanCLSurrogate", "SysTripanCMSurrogate",
     "SysTripanCDSurrogate", "SysCTTar", "SysFuelWeight",
     "coupled_solver",
     "SysTau", "SysTmin", "SysTmax", "SysFuelObj", "SysBlockTime"]
  connections := segmentConnections
  solverStates :=
    [("SysTripanCLSurrogate.alpha", "SysTripanCLSurrogate.alpha_res = 0"),
     ("SysTripanCMSurrogate.eta", "SysTripanCMSurrogate.CM = 0")]
  passthroughs :=
    ["h_pt", "v_pt", "M_pt", "Tmin", "Tmax", "fuelburn", "time", "h", "Gamma"]
  topWorkflow :=
    ["SysXBspline", "SysHBspline", "SysMVBspline", "SysGammaBspline",
     "SysSFC", "SysTemp", "SysRho", "SysSpeed",
     "coupled_solver",
     "SysTau", "SysTmin", "SysTmax", "SysFuelObj", "SysBlockTime"]
  coupledWorkflow :=
    ["SysCLTar", "SysTripanCLSurrogate", "SysTripanCMSurrogate",
     "SysTripanCDSurrogate", "SysCTTar", "SysFuelWeight"]
  atol := 1 / 1000000000
  rtol := 1 / 1000000000
  max_iteration := 15
  fuel_w_init := linspace 1 0 (num_elem + 1)

/-- Concrete parameter values used to instantiate witnesses (the CRM values
of `multipoint.py` are immaterial to the structural claims). -/
def testParams : SegmentParams :=
  ⟨4278 / 1000, 2061810 / 1000, 102 / 100, 8785 / 100, 868 / 100, 8 / 10⟩

end PyMission

namespace PyMission

/-! ## The outer Newton loop of the coupled solver

`segment.py` instantiates openmdao's `NewtonSolver` and only configures it
(lines 292-298); the loop itself lives outside this repository, so it is
modelled from the spec (§4.3). -/

/-- Result of one coupled solve: final state, the residual norm reported at
termination, the number of outer iterations taken, and whether the
tolerance test was met. -/
structure NewtonResult (σ : Type) where
  state : σ
  residNorm : ℚ
  iterations : Nat
  converged : Bool
  deriving Repr, DecidableEq

/-- Modelled from the spec: the outer loop of the coupled Newton solver
(openmdao's `NewtonSolver`, an external collaborator configured but not
defined in `segment.py`).  Spec §4.3: evaluate the residual; if its norm is
within the absolute and relative tolerances, terminate converged; otherwise
take a Newton update and repeat; stop unconditionally once the iteration
budget is spent, whether or not converged, reporting the current residual
norm.  The residual-norm function and the Newton update are abstract. -/
def newtonLoop {σ : Type} (resNorm : σ → ℚ) (update : σ → σ)
    (atol rtol norm0 : ℚ) : Nat → Nat → σ → NewtonResult σ
  | 0, done, s =>
      ⟨s, resNorm s, done, decide (resNorm s ≤ atol ∧ resNorm s ≤ rtol * norm0)⟩
  | fuel + 1, done, s =>
      if resNorm s ≤ atol ∧ resNorm s ≤ rtol * norm0 then
        ⟨s, resNorm s, done, true⟩
      else
        newtonLoop resNorm update atol rtol norm0 fuel (done + 1) (update s)

/-- Modelled from the spec: a full coupled solve starting from `s0`; the
relative test is taken against the initial residual norm. -/
def newtonSolve {σ : Type} (resNorm : σ → ℚ) (update : σ → σ)
    (atol rtol : ℚ) (maxIter : Nat) (s0 : σ) : NewtonResult σ :=
  newtonLoop resNorm update atol rtol (resNorm s0) maxIter 0 s0

/-- The coupled solve as configured by a given segment assembly. -/
def coupledSolve {σ : Type} (seg : SegmentAssembly) (resNorm : σ → ℚ)
    (update : σ → σ) (s0 : σ) : NewtonResult σ :=
  newtonSolve resNorm update seg.atol seg.rtol seg.max_iteration s0

/-- Invariant of the Newton loop: the iteration count never exceeds the
budget, the reported norm is the residual norm of the final state, a
converged result meets both tolerances, and an unconverged result used the
whole budget. -/
theorem newtonLoop_spec {σ : Type} (resNorm : σ → ℚ) (update : σ → σ)
    (atol rtol norm0 : ℚ) :
    ∀ (fuel done : Nat) (s : σ),
      (newtonLoop resNorm update atol rtol norm0 fuel done s).iterations ≤ done + fuel ∧
      (newtonLoop resNorm update atol rtol norm0 fuel done s).residNorm =
        resNorm (newtonLoop resNorm update atol rtol norm0 fuel done s).state ∧
      ((newtonLoop resNorm update atol rtol norm0 fuel done s).converged = true →
        (newtonLoop resNorm update atol rtol norm0 fuel done s).residNorm ≤ atol ∧
        (newtonLoop resNorm update atol rtol norm0 fuel done s).residNorm ≤ rtol * norm0) ∧
      ((newtonLoop resNorm update atol rtol norm0 fuel done s).converged = false →
        (newtonLoop resNorm update atol rtol norm0 fuel done s).iterations = done + fuel) := by
  intro fuel
  induction fuel with
  | zero =>
      intro done s
      exact ⟨Nat.le_add_right done 0, rfl, fun hc => of_decide_eq_true hc, fun _ => rfl⟩
  | succ n ih =>
      intro done s
      by_cases h : resNorm s ≤ atol ∧ resNorm s ≤ rtol * norm0
      · have hr : newtonLoop resNorm update atol rtol norm0 (n + 1) done s =
            ⟨s, resNorm s, done, true⟩ := by
          simp only [newtonLoop, if_pos h]
        rw [hr]
        exact ⟨Nat.le_add_right done (n + 1), rfl, fun _ => h, fun hc => by cases hc⟩
      · have hr : newtonLoop resNorm update atol rtol norm0 (n + 1) done s =
            newtonLoop resNorm update atol rtol norm0 n (done + 1) (update s) := by
          simp only [newtonLoop, if_neg h]
        rw [hr]
        obtain ⟨h1, h2, h3, h4⟩ := ih (done + 1) (update s)
        exact ⟨by omega, h2, h3, fun hc => by rw [h4 hc]; omega⟩

/-- C1: the coupled solver is registered with exactly the two implicit state
ports `SysTripanCLSurrogate.alpha` (residual `alpha_res = 0`) and
`SysTripanCMSurrogate.eta` (residual `CM = 0`), and nothing else, for every
assembled segment. -/
theorem coupled_solver_two_states (num_elem num_pt : Nat) (p : SegmentParams) :
    (missionSegment num_elem num_pt p).solverStates =
      [("SysTripanCLSurrogate.alpha", "SysTripanCLSurrogate.alpha_res = 0"),
       ("SysTripanCMSurrogate.eta", "SysTripanCMSurrogate.CM = 0")] := rfl

/-- C2: the segment configures the coupled Newton solver with
`atol = rtol = 1e-9` and `max_iteration = 15`; under those settings the
outer loop takes at most 15 iterations, terminates converged exactly when
the residual norm meets both the absolute and the relative tolerance, and
otherwise stops after the full 15 iterations reporting the current
residual norm (it always returns a result, never an exception). -/
theorem coupled_solver_termination {σ : Type} (resNorm : σ → ℚ) (update : σ → σ)
    (num_elem num_pt : Nat) (p : SegmentParams) (s0 : σ) :
    (missionSegment num_elem num_pt p).atol = 1 / 1000000000 ∧
    (missionSegment num_elem num_pt p).rtol = 1 / 1000000000 ∧
    (missionSegment num_elem num_pt p).max_iteration = 15 ∧
    (coupledSolve (missionSegment num_elem num_pt p) resNorm update s0).iterations ≤ 15 ∧
    (coupledSolve (missionSegment num_elem num_pt p) resNorm update s0).residNorm =
      resNorm (coupledSolve (missionSegment num_elem num_pt p) resNorm update s0).state ∧
    ((coupledSolve (missionSegment num_elem num_pt p) resNorm update s0).converged = true →
      (coupledSolve (missionSegment num_elem num_pt p) resNorm update s0).residNorm ≤
        1 / 1000000000 ∧
      (coupledSolve (missionSegment num_elem num_pt p) resNorm update s0).residNorm ≤
        (1 / 1000000000) * resNorm s0) ∧
    ((coupledSolve (missionSegment num_elem num_pt p) resNorm update s0).converged = false →
      (coupledSolve (missionSegment num_elem num_pt p) resNorm update s0).iterations = 15) := by
  obtain ⟨h1, h2, h3, h4⟩ :=
    newtonLoop_spec resNorm update (1 / 1000000000) (1 / 1000000000) (resNorm s0) 15 0 s0
  exact ⟨rfl, rfl, rfl, h1, h2, h3, h4⟩

/-- Witness for C2 at a concrete instance: with the zero residual function
on `Unit`, the coupled solve of an assembled segment converges at once and
its reported residual norm meets the `1e-9` tolerance. -/
theorem coupled_solver_termination_witness :
    (coupledSolve (missionSegment 10 5 testParams) (fun _ : Unit => (0 : ℚ)) id ()).residNorm ≤
        1 / 1000000000 ∧
      (coupledSolve (missionSegment 10 5 testParams) (fun _ : Unit => (0 : ℚ)) id ()).iterations ≤
        15 :=
  ⟨((coupled_solver_termination (fun _ : Unit => (0 : ℚ)) id 10 5 testParams
      ()).2.2.2.2.2.1
      (by norm_num [coupledSolve, newtonSolve, newtonLoop, missionSegment])).1,
   (coupled_solver_termination (fun _ : Unit => (0 : ℚ)) id 10 5 testParams ()).2.2.2.1⟩

/-! ## The workflow executor -/

/-- Modelled from the spec: the Workflow Executor (openmdao's driver
workflow, an external collaborator; `segment.py` only supplies the step
lists).  Spec §4.2: execute the given ordered list of steps exactly once
per invocation, in that order, threading state; the returned trace records
the steps in execution order. -/
def runWorkflow {St : Type} (execStep : String → St → St) (steps : List String)
    (s : St) : St × List String :=
  steps.foldl (fun acc step => (execStep step acc.1, acc.2 ++ [step])) (s, [])

/-- The execution trace of a workflow is exactly its step list. -/
theorem runWorkflow_trace {St : Type} (execStep : String → St → St) :
    ∀ (steps : List String) (s : St) (pre : List String),
      (steps.foldl (fun acc step => (execStep step acc.1, acc.2 ++ [step]))
        (s, pre)).2 = pre ++ steps := by
  intro steps
  induction steps with
  | nil => intro s pre; simp
  | cons a t ih =>
      intro s pre
      simp only [List.foldl_cons, ih (execStep a s) (pre ++ [a]), List.append_assoc,
        List.singleton_append]

/-- C4: one invocation of the segment's top workflow executes exactly the
assembler-supplied steps, once each, in the fixed order splines →
atmospherics → coupled solver (one opaque step) → functionals; the coupled
group's internal workflow likewise executes its six systems once each in
its fixed order. -/
theorem workflow_order {St : Type} (execStep : String → St → St) (s : St)
    (num_elem num_pt : Nat) (p : SegmentParams) :
    (runWorkflow execStep (missionSegment num_elem num_pt p).topWorkflow s).2 =
      ["SysXBspline", "SysHBspline", "SysMVBspline", "SysGammaBspline",
       "SysSFC", "SysTemp", "SysRho", "SysSpeed",
       "coupled_solver",
       "SysTau", "SysTmin", "SysTmax", "SysFuelObj", "SysBlockTime"] ∧
    (runWorkflow execStep (missionSegment num_elem num_pt p).coupledWorkflow s).2 =
      ["SysCLTar", "SysTripanCLSurrogate", "SysTripanCMSurrogate",
       "SysTripanCDSurrogate", "SysCTTar", "SysFuelWeight"] :=
  ⟨runWorkflow_trace execStep (missionSegment num_elem num_pt p).topWorkflow s [],
   runWorkflow_trace execStep (missionSegment num_elem num_pt p).coupledWorkflow s []⟩

/-- C8: the passthrough boundary ports are exactly `h_pt`, `v_pt`, `M_pt`,
`Tmin`, `Tmax`, `fuelburn`, `time`, `h`, `Gamma` (in registration order),
and the promoted `h_pt` is additionally wired to `SysGammaBspline.h_pt`. -/
theorem passthrough_ports (num_elem num_pt : Nat) (p : SegmentParams) :
    (missionSegment num_elem num_pt p).passthroughs =
      ["h_pt", "v_pt", "M_pt", "Tmin", "Tmax", "fuelburn", "time", "h", "Gamma"] ∧
    (Connection.mk "h_pt" "SysGammaBspline.h_pt") ∈
      (missionSegment num_elem num_pt p).connections :=
  ⟨rfl, by simp [missionSegment, segmentConnections]⟩

/-! ## The fuel-weight initial guess (segment.py line 184) -/

/-- Element `i` of `linspace a b n` (for `n ≥ 2` and `i < n`). -/
theorem linspace_getD (a b : ℚ) (n : Nat) (h2 : 2 ≤ n) (i : Nat) (hi : i < n) :
    (linspace a b n).getD i 0 = a + (b - a) * (i : ℚ) / ((n : ℚ) - 1) := by
  have h0 : ¬n = 0 := by omega
  have h1 : ¬n = 1 := by omega
  rw [linspace, if_neg h0, if_neg h1, List.getD_eq_getElem?_getD,
    List.getElem?_map, List.getElem?_range hi]
  rfl

/-- C9 counterexample: at `num_elem = 0` the initial fuel-weight profile is
the single station `[1]`, which does not come down to `0`, so the claim's
"for every value of num_elem" fails. -/
theorem fuel_w_init_at_zero :
    (missionSegment 0 5 testParams).fuel_w_init = [1] ∧
      (missionSegment 0 5 testParams).fuel_w_init.getLast? ≠ some 0 := by
  refine ⟨rfl, ?_⟩
  rw [show (missionSegment 0 5 testParams).fuel_w_init = [1] from rfl]
  simp only [List.getLast?_singleton, ne_eq, Option.some.injEq]
  norm_num

/-- C9 (amended): for every `num_elem ≥ 1`, the fuel-weight coupling state
is initialized to the linear profile `1 - i/num_elem` over the
`num_elem+1` stations: it has length `num_elem+1`, starts at `1`, ends at
`0`, and strictly decreases station to station.  (At `num_elem = 0` the
profile is the single station `[1]`.) -/
theorem fuel_w_init_linear (num_elem num_pt : Nat) (p : SegmentParams)
    (h : 1 ≤ num_elem) :
    (missionSegment num_elem num_pt p).fuel_w_init.length = num_elem + 1 ∧
    (∀ i, i ≤ num_elem →
      (missionSegment num_elem num_pt p).fuel_w_init.getD i 0 =
        1 - (i : ℚ) / (num_elem : ℚ)) ∧
    (missionSegment num_elem num_pt p).fuel_w_init.getD 0 0 = 1 ∧
    (missionSegment num_elem num_pt p).fuel_w_init.getD num_elem 0 = 0 ∧
    (∀ i, i < num_elem →
      (missionSegment num_elem num_pt p).fuel_w_init.getD (i + 1) 0 <
        (missionSegment num_elem num_pt p).fuel_w_init.getD i 0) := by
  have h2 : 2 ≤ num_elem + 1 := by omega
  have hn0 : (num_elem : ℚ) ≠ 0 := by
    exact_mod_cast (show num_elem ≠ 0 by omega)
  have hfw : (missionSegment num_elem num_pt p).fuel_w_init =
      linspace 1 0 (num_elem + 1) := rfl
  have hform : ∀ i, i ≤ num_elem →
      (missionSegment num_elem num_pt p).fuel_w_init.getD i 0 =
        1 - (i : ℚ) / (num_elem : ℚ) := by
    intro i hi
    rw [hfw, linspace_getD 1 0 (num_elem + 1) h2 i (by omega)]
    push_cast
    ring
  refine ⟨?_, hform, ?_, ?_, ?_⟩
  · rw [hfw]
    have h0 : ¬num_elem + 1 = 0 := by omega
    have h1 : ¬num_elem + 1 = 1 := by omega
    rw [linspace, if_neg h0, if_neg h1, List.length_map, List.length_range]
  · rw [hform 0 (by omega)]
    norm_num
  · rw [hform num_elem (le_refl _)]
    rw [div_self hn0]
    ring
  · intro i hi
    rw [hform i (by omega), hform (i + 1) (by omega)]
    have hnpos : (0 : ℚ) < (num_elem : ℚ) := by
      exact_mod_cast (show 0 < num_elem by omega)
    have hlt : (i : ℚ) / (num_elem : ℚ) < ((i : ℚ) + 1) / (num_elem : ℚ) :=
      (div_lt_div_iff_of_pos_right hnpos).mpr (by linarith)
    push_cast
    linarith

/-- Witness for C9's amended statement at `num_elem = 2`: the profile has
the three stations and ends at `0`. -/
theorem fuel_w_init_linear_witness :
    (missionSegment 2 5 testParams).fuel_w_init.length = 3 ∧
      (missionSegment 2 5 testParams).fuel_w_init.getD 2 0 = 0 :=
  ⟨(fuel_w_init_linear 2 5 testParams (by norm_num)).1,
   (fuel_w_init_linear 2 5 testParams (by norm_num)).2.2.2.1⟩

/-! ## set_init_h_pt (segment.py lines 302-308) -/

/-- Dot product of two aligned rows (numpy `dot` on 1-d arrays). -/
def dotL (u v : List ℚ) : ℚ := (List.zipWith (· * ·) u v).sum

/-- Matrix–vector product `A · v` on row-major nested lists. -/
def matVecL (A : List (List ℚ)) (v : List ℚ) : List ℚ :=
  A.map (fun r => dotL r v)

/-- Matrix–matrix product `A · B` on row-major nested lists. -/
def matMulL (A B : List (List ℚ)) : List (List ℚ) :=
  A.map (fun r => B.transpose.map (fun c => dotL r c))

/-- State touched by `set_init_h_pt`: the precomputed altitude spline
operator `jac_h` and the `h_pt` boundary port. -/
structure SegmentSplineState where
  jac_h : List (List ℚ)
  h_pt : List ℚ
  deriving Repr, DecidableEq

/-- Embedding of `MissionSegment.set_init_h_pt` (segment.py lines 302-308): with
`A = jac_h` and `b = h_init_pt`, form the normal equations `AᵀA` and
`Aᵀb`, hand them to the iterative linear solver — scipy's `gmres`, an
external collaborator abstracted here as the argument `gmres`, whose
result pair's component `[0]` is the solution vector — and store that
solution in the segment's `h_pt` boundary port. -/
def set_init_h_pt (gmres : List (List ℚ) → List ℚ → (List ℚ × Int))
    (seg : SegmentSplineState) (h_init_pt : List ℚ) : SegmentSplineState :=
  let A := seg.jac_h
  let b := h_init_pt
  let ATA := matMulL A.transpose A
  let ATb := matVecL A.transpose b
  { seg with h_pt := (gmres ATA ATb).1 }

/-- C3: `set_init_h_pt b` stores in `h_pt` exactly the iterative solver's
solution of the normal equations `AᵀA · cp = Aᵀb` (and touches nothing
else); in particular, whenever the solver solves that linear system
exactly, the stored control points satisfy the normal equations. -/
theorem set_init_h_pt_normal_equations
    (gmres : List (List ℚ) → List ℚ → (List ℚ × Int))
    (seg : SegmentSplineState) (b : List ℚ) :
    (set_init_h_pt gmres seg b).h_pt =
      (gmres (matMulL seg.jac_h.transpose seg.jac_h)
        (matVecL seg.jac_h.transpose b)).1 ∧
    (set_init_h_pt gmres seg b).jac_h = seg.jac_h ∧
    (matVecL (matMulL seg.jac_h.transpose seg.jac_h)
        (gmres (matMulL seg.jac_h.transpose seg.jac_h)
          (matVecL seg.jac_h.transpose b)).1 =
        matVecL seg.jac_h.transpose b →
      matVecL (matMulL seg.jac_h.transpose seg.jac_h)
        ((set_init_h_pt gmres seg b).h_pt) =
        matVecL seg.jac_h.transpose b) :=
  ⟨rfl, rfl, fun hsolve => hsolve⟩

/-- Witness for C3 on the 1×1 system `A = [[1]]`, `b = [1]` with an exact
solver: the stored `h_pt` satisfies the normal equations. -/
theorem set_init_h_pt_normal_equations_witness :
    matVecL (matMulL ([[1]] : List (List ℚ)).transpose [[1]])
      ((set_init_h_pt (fun _ v => (v, 0)) ⟨[[1]], [0]⟩ [1]).h_pt) =
      matVecL ([[1]] : List (List ℚ)).transpose [1] :=
  (set_init_h_pt_normal_equations (fun _ v => (v, 0)) ⟨[[1]], [0]⟩ [1]).2.2
    (by
      have ht : ([[(1 : ℚ)]]).transpose = [[1]] := rfl
      simp [matVecL, matMulL, dotL, ht])

/-! ## Parameter loading (segment.py lines 69-77) -/

/-- A python dict access `params[k]`: a missing key is a `KeyError`. -/
def getKey (params : List (String × ℚ)) (k : String) : Except String ℚ :=
  match params.lookup k with
  | some v => Except.ok v
  | none => Except.error ("KeyError: " ++ k)

/-- The parameter loading of `MissionSegment.__init__` (segment.py lines
69-77): `execfile(params_file, data)` — an unreadable file raises before
anything else, modelled by `none`; then `data['params']`; then exactly the
six reads `S`, `ac_w`, `thrust_sl`, `SFCSL`, `AR`, `e`, in source order,
the first missing one raising `KeyError`. -/
def loadParams (file : Option (List (String × List (String × ℚ)))) :
    Except String SegmentParams :=
  match file with
  | none => Except.error "IOError: params_file"
  | some data =>
    match data.lookup "params" with
    | none => Except.error "KeyError: params"
    | some params =>
      match getKey params "S" with
      | Except.error msg => Except.error msg
      | Except.ok vS =>
        match getKey params "ac_w" with
        | Except.error msg => Except.error msg
        | Except.ok vw =>
          match getKey params "thrust_sl" with
          | Except.error msg => Except.error msg
          | Except.ok vt =>
            match getKey params "SFCSL" with
            | Except.error msg => Except.error msg
            | Except.ok vf =>
              match getKey params "AR" with
              | Except.error msg => Except.error msg
              | Except.ok va =>
                match getKey params "e" with
                | Except.error msg => Except.error msg
                | Except.ok vo => Except.ok ⟨vS, vw, vt, vf, va, vo⟩

/-- Construction of a `MissionSegment`: the parameters load first (segment.py
lines 69-77); only on success does the constructor go on to assemble the
segment. -/
def mkMissionSegment (num_elem num_pt : Nat)
    (file : Option (List (String × List (String × ℚ)))) :
    Except String SegmentAssembly :=
  match loadParams file with
  | Except.error msg => Except.error msg
  | Except.ok p => Except.ok (missionSegment num_elem num_pt p)

/-- Written from the spec's words (§6, §7): a parameter source is usable
exactly when the file is readable, defines `params`, and that mapping has
all six keys `S`, `ac_w`, `thrust_sl`, `SFCSL`, `AR`, `e`.  Compared
against the constructor's actual behaviour in the C7 theorem. -/
def paramsComplete (file : Option (List (String × List (String × ℚ)))) : Bool :=
  match file with
  | none => false
  | some data =>
    match data.lookup "params" with
    | none => false
    | some params =>
      (params.lookup "S").isSome && (params.lookup "ac_w").isSome &&
      (params.lookup "thrust_sl").isSome && (params.lookup "SFCSL").isSome &&
      (params.lookup "AR").isSome && (params.lookup "e").isSome

/-- C7: constructing a segment succeeds exactly when the parameter source
is complete — readable, defining `params` with all six keys `S`, `ac_w`,
`thrust_sl`, `SFCSL`, `AR`, `e` (no other key is consulted); an unreadable
file or a missing key raises during construction, so the segment is never
assembled (the constructor returns an error, not an assembly). -/
theorem params_fatal_at_assembly (num_elem num_pt : Nat)
    (file : Option (List (String × List (String × ℚ)))) :
    (mkMissionSegment num_elem num_pt file).isOk = paramsComplete file := by
  cases file with
  | none => rfl
  | some data =>
    cases hd : data.lookup "params" with
    | none => simp [mkMissionSegment, loadParams, paramsComplete, hd, Except.isOk, Except.toBool, Except.isOk, Except.toBool]
    | some params =>
      cases h1 : params.lookup "S" with
      | none =>
          simp [mkMissionSegment, loadParams, paramsComplete, hd, getKey, h1, Except.isOk, Except.toBool]
      | some v1 =>
        cases h2 : params.lookup "ac_w" with
        | none =>
            simp [mkMissionSegment, loadParams, paramsComplete, hd, getKey,
              h1, h2, Except.isOk, Except.toBool]
        | some v2 =>
          cases h3 : params.lookup "thrust_sl" with
          | none =>
              simp [mkMissionSegment, loadParams, paramsComplete, hd, getKey,
                h1, h2, h3, Except.isOk, Except.toBool]
          | some v3 =>
            cases h4 : params.lookup "SFCSL" with
            | none =>
                simp [mkMissionSegment, loadParams, paramsComplete, hd, getKey,
                  h1, h2, h3, h4, Except.isOk, Except.toBool]
            | some v4 =>
              cases h5 : params.lookup "AR" with
              | none =>
                  simp [mkMissionSegment, loadParams, paramsComplete, hd, getKey,
                    h1, h2, h3, h4, h5, Except.isOk, Except.toBool]
              | some v5 =>
                cases h6 : params.lookup "e" with
                | none =>
                    simp [mkMissionSegment, loadParams, paramsComplete, hd,
                      getKey, h1, h2, h3, h4, h5, h6, Except.isOk, Except.toBool]
                | some v6 =>
                    simp [mkMissionSegment, loadParams, paramsComplete, hd,
                      getKey, h1, h2, h3, h4, h5, h6, Except.isOk, Except.toBool]

/-! ## The multipoint script (multipoint.py) -/

/-- The segments instantiated and scheduled by `multipoint.py` (lines 48,
95, 142, 171). -/
def multipointSegments : List String := ["seg1", "seg2", "seg3"]

/-- The top-level connections issued by `multipoint.py`: the script adds
the three segments and its workflow but never calls `model.connect`, so
there are none. -/
def multipointConnections : List Connection := []

/-- Owning segment of a top-level port name (the prefix before the first
dot, e.g. `seg1.fuelburn`). -/
def segOf (port : String) : String := (port.splitOn ".").headD port

/-- The full mission connection graph: each segment's internal connections
(which live entirely inside the segment that instantiated them), tagged
with the owning segment of each endpoint, plus whatever cross-segment
connections the top assembly makes. -/
def missionEdges : List (String × String × Connection) :=
  (multipointSegments.map (fun s => segmentConnections.map (fun c => (s, s, c)))).flatten
    ++ multipointConnections.map (fun c => (segOf c.src, segOf c.dst, c))

/-- Running the three segments, each a pure map from its own inputs to its
own outputs: an execution order is a list of segment indices, and each run
writes only its own output slot. -/
def runSegs {α β : Type} (fs : Fin 3 → α → β) (ins : Fin 3 → α)
    (order : List (Fin 3)) : Fin 3 → Option β :=
  order.foldl (fun st i => fun j => if j = i then some (fs i (ins i)) else st j)
    (fun _ => none)

/-- The six execution orders of the three segments: sequential
(`[0, 1, 2]`, the serial workflow order of `multipoint.py`) and every
parallel interleaving at segment granularity. -/
def allOrders : List (List (Fin 3)) :=
  [[0, 1, 2], [0, 2, 1], [1, 0, 2], [1, 2, 0], [2, 0, 1], [2, 1, 0]]

/-- C6: the assembled three-leg mission makes no cross-segment connection —
the top assembly connects nothing, and every edge of the mission graph has
both endpoints inside one segment — so with each segment a pure function
of its own inputs, running the segments in the sequential order or in any
parallel interleaving yields identical per-segment outputs. -/
theorem segments_independent {α β : Type} (fs : Fin 3 → α → β) (ins : Fin 3 → α)
    (order : List (Fin 3)) :
    multipointConnections = [] ∧
    (∀ e ∈ missionEdges, e.1 = e.2.1) ∧
    (order ∈ allOrders →
      runSegs fs ins order = fun j => some (fs j (ins j))) := by
  refine ⟨rfl, ?_, ?_⟩
  · intro e he
    rw [missionEdges] at he
    simp only [multipointConnections, List.map_nil, List.append_nil] at he
    rw [List.mem_flatten] at he
    obtain ⟨l, hl, hel⟩ := he
    rw [List.mem_map] at hl
    obtain ⟨s, _, rfl⟩ := hl
    rw [List.mem_map] at hel
    obtain ⟨c, _, rfl⟩ := hel
    rfl
  · intro horder
    fin_cases horder <;> (funext j; fin_cases j <;> rfl)

/-- Witness for C6 at the order `[2, 0, 1]` with concrete segment
functions: the outputs equal those of the sequential run slot by slot. -/
theorem segments_independent_witness :
    runSegs (fun i (x : Nat) => x + i.val) (fun i => i.val) [2, 0, 1] =
      fun j => some (j.val + j.val) :=
  (segments_independent (fun i (x : Nat) => x + i.val) (fun i => i.val)
    [2, 0, 1]).2.2 (by decide)

/-- The root-process fuel-burn reduction of the MPI branch (multipoint.py
lines 189-194): the gathered list of per-process `(seg1, seg2, seg3)`
fuel-burn triples is indexed at positions 0, 1 and 2 unconditionally and
the per-leg `max` of those three entries is reported; indexing past the
end of the gathered list is an `IndexError`, modelled as `none`. -/
def fuelburnReportMPI (dist_seg : List (ℚ × ℚ × ℚ)) : Option (ℚ × ℚ × ℚ) :=
  match dist_seg with
  | g0 :: g1 :: g2 :: _ =>
      some (max g0.1 (max g1.1 g2.1),
            max g0.2.1 (max g1.2.1 g2.2.1),
            max g0.2.2 (max g1.2.2 g2.2.2))
  | _ => none

/-- The fuel-burn reporting of `multipoint.py` (lines 185-198): with MPI
active, the gathered reduction; otherwise each segment's own
`SysFuelObj.fuelburn` directly. -/
def fuelburnReport (mpi : Bool) (dist_seg : List (ℚ × ℚ × ℚ))
    (seg1 seg2 seg3 : ℚ) : Option (ℚ × ℚ × ℚ) :=
  if mpi then fuelburnReportMPI dist_seg else some (seg1, seg2, seg3)

/-- Written from the spec's words (§4.6, §6): the maximum of one leg's
value across ALL distributed copies.  Compared against the code's
reduction in the C5 theorems. -/
def specLegMax : List ℚ → Option ℚ
  | [] => none
  | v :: rest =>
    match specLegMax rest with
    | none => some v
    | some m => some (max v m)

/-- C5 counterexample: with four gathered copies whose fourth copy holds
the largest leg-1 value, the code reports the max of the first three
copies only (1), not the max across all distributed copies (5). -/
theorem fuelburn_report_counterexample :
    fuelburnReport true [(1, 1, 1), (1, 1, 1), (1, 1, 1), (5, 5, 5)] 0 0 0 =
      some (1, 1, 1) ∧
    specLegMax ([((1 : ℚ), (1 : ℚ), (1 : ℚ)), (1, 1, 1), (1, 1, 1),
      (5, 5, 5)].map (fun g => g.1)) = some 5 ∧
    (1 : ℚ) ≠ 5 := by
  refine ⟨?_, ?_, by norm_num⟩
  · simp [fuelburnReport, fuelburnReportMPI]
  · simp only [List.map_cons, List.map_nil, specLegMax]
    norm_num

/-- C5 (amended): when MPI is active and at least three copies are
gathered, the reported fuel burn per leg is the per-leg maximum over the
FIRST THREE gathered copies — the maximum across all copies exactly when
three processes ran (one per leg, as intended); when not distributed, each
leg's own `SysFuelObj.fuelburn` is reported directly.  Either way exactly
one scalar per leg is reported. -/
theorem fuelburn_report_amended (g0 g1 g2 : ℚ × ℚ × ℚ)
    (rest : List (ℚ × ℚ × ℚ)) (s1 s2 s3 : ℚ) :
    fuelburnReport true (g0 :: g1 :: g2 :: rest) s1 s2 s3 =
      some (max g0.1 (max g1.1 g2.1),
            max g0.2.1 (max g1.2.1 g2.2.1),
            max g0.2.2 (max g1.2.2 g2.2.2)) ∧
    (rest = [] →
      specLegMax ((g0 :: g1 :: g2 :: rest).map (fun g => g.1)) =
        some (max g0.1 (max g1.1 g2.1))) ∧
    fuelburnReport false (g0 :: g1 :: g2 :: rest) s1 s2 s3 = some (s1, s2, s3) := by
  refine ⟨rfl, ?_, rfl⟩
  intro hrest
  subst hrest
  simp [specLegMax]

/-- Witness for C5's amended statement on three concrete copies: the
per-leg max over all (three) copies is what the spec-side reduction
computes. -/
theorem fuelburn_report_amended_witness :
    specLegMax ([((3 : ℚ), (0 : ℚ), (0 : ℚ)), (7, 0, 0), (5, 0, 0)].map
      (fun g => g.1)) = some (max 3 (max 7 5)) :=
  (fuelburn_report_amended (3, 0, 0) (7, 0, 0) (5, 0, 0) [] 0 0 0).2.1 rfl

/-- C10: the MPI reduction indexes the gathered list at 0, 1, 2
unconditionally, so with fewer than three gathered copies (fewer than
three MPI processes) it raises an `IndexError` instead of reporting fuel
burns, and it reports exactly when at least three copies were gathered. -/
theorem fuelburn_report_short_gather (dist_seg : List (ℚ × ℚ × ℚ)) :
    (dist_seg.length < 3 → fuelburnReportMPI dist_seg = none) ∧
    (3 ≤ dist_seg.length → (fuelburnReportMPI dist_seg).isSome = true) := by
  cases dist_seg with
  | nil => exact ⟨fun _ => rfl, fun hl => by simp at hl⟩
  | cons g0 t0 =>
    cases t0 with
    | nil => exact ⟨fun _ => rfl, fun hl => by simp at hl⟩
    | cons g1 t1 =>
      cases t1 with
      | nil => exact ⟨fun _ => rfl, fun hl => by simp at hl⟩
      | cons g2 t2 =>
          refine ⟨fun hl => ?_, fun _ => rfl⟩
          simp only [List.length_cons] at hl
          omega

/-- Witness for C10: two gathered copies raise (no report); three report. -/
theorem fuelburn_report_short_gather_witness :
    fuelburnReportMPI [((1 : ℚ), (2 : ℚ), (3 : ℚ)), (4, 5, 6)] = none ∧
    (fuelburnReportMPI [((1 : ℚ), (2 : ℚ), (3 : ℚ)), (4, 5, 6),
      (7, 8, 9)]).isSome = true :=
  ⟨(fuelburn_report_short_gather [(1, 2, 3), (4, 5, 6)]).1 (by decide),
   (fuelburn_report_short_gather [(1, 2, 3), (4, 5, 6), (7, 8, 9)]).2 (by decide)⟩

end PyMission
